import Mathlib

/-!
Verification development for the `two1` wallet daemon IPC layer
(`two1/lib/wallet/socket_rpc_server.py`): the Unix-domain-socket JSON-RPC
server (`UnixSocketJSONRPCServer`), its per-connection handler
(`JSONRPCHandler.handle`), and the client proxy (`UnixSocketServerProxy`).

The Python code is shallowly embedded: each I/O or library call made by the
handler is represented by its outcome (an `IterEnv` field), and the handler's
control flow (the `try`/`except`/`finally` structure, the `response` local
variable that survives across loop iterations, the poll/recv/strip/decode
read path) is translated statement by statement into total Lean functions.
Python exceptions are an explicit `PyExc` type; a computation that can raise
returns `Except PyExc _`.
-/

namespace SocketRpc

/-- JSON values, the data carried by requests and responses. -/
inductive JVal where
  | null
  | jbool (b : Bool)
  | jnum (n : Int)
  | jstr (s : String)
  | jarr (xs : List JVal)
  | jobj (fs : List (String × JVal))

/-- Python exceptions that the embedded code can raise or observe.
`brokenPipe`, `connectionRefused`, `connectionReset` and `connectionAborted`
are the subclasses of Python's `ConnectionError`; `connectionErrorBase` is
the base class itself.  `other` stands for any further `Exception`. -/
inductive PyExc where
  | brokenPipe
  | connectionRefused
  | connectionReset
  | connectionAborted
  | connectionErrorBase
  | fileNotFound
  | nameError
  | indexError
  | unicodeDecodeError
  | other (msg : String)
deriving DecidableEq

/-- Membership of Python's `ConnectionError` hierarchy (what
`except ConnectionError` catches). -/
def PyExc.isConnectionError : PyExc → Bool
  | .brokenPipe => true
  | .connectionRefused => true
  | .connectionReset => true
  | .connectionAborted => true
  | .connectionErrorBase => true
  | _ => false

/-- A JSON-RPC response value: exactly one of `result` or `err`, each
carrying the request id it answers (`none` when the request had no id). -/
inductive ResponseV where
  | result (requestId : Option JVal) (v : JVal)
  | err (requestId : Option JVal) (code : Int) (message : String)

/-! ### Bytes: `bytes.strip()` and `bytes.decode()`

`handle` reads `self.request.recv(1024).strip().decode()`.  `strip` drops
leading and trailing ASCII whitespace bytes; `decode` is strict UTF-8 and
raises `UnicodeDecodeError` on invalid input. -/

/-- The six ASCII whitespace bytes stripped by Python's `bytes.strip()`. -/
def isWsByte (b : Nat) : Bool :=
  b = 9 || b = 10 || b = 11 || b = 12 || b = 13 || b = 32

/-- Python `bytes.strip()`: drop leading and trailing whitespace bytes. -/
def stripBytes (bs : List Nat) : List Nat :=
  ((bs.dropWhile isWsByte).reverse.dropWhile isWsByte).reverse

/-- A UTF-8 continuation byte. -/
def isCont (b : Nat) : Bool := 0x80 ≤ b && b ≤ 0xBF

/-- Strict UTF-8 decoding of a byte list into code points (RFC 3629:
overlong forms, surrogates and out-of-range values are rejected), returning
`none` exactly where Python's `bytes.decode()` raises. -/
def utf8Decode : List Nat → Option (List Char)
  | [] => some []
  | b :: rest =>
    if b ≤ 0x7F then
      (utf8Decode rest).map (fun cs => Char.ofNat b :: cs)
    else if 0xC2 ≤ b && b ≤ 0xDF then
      match rest with
      | c1 :: rest' =>
        if isCont c1 then
          (utf8Decode rest').map
            (fun cs => Char.ofNat ((b - 0xC0) * 0x40 + (c1 - 0x80)) :: cs)
        else none
      | _ => none
    else if 0xE0 ≤ b && b ≤ 0xEF then
      match rest with
      | c1 :: c2 :: rest' =>
        if (isCont c1 && isCont c2) &&
           (b ≠ 0xE0 || 0xA0 ≤ c1) && (b ≠ 0xED || c1 ≤ 0x9F) then
          (utf8Decode rest').map
            (fun cs =>
              Char.ofNat ((b - 0xE0) * 0x1000 + (c1 - 0x80) * 0x40 + (c2 - 0x80)) :: cs)
        else none
      | _ => none
    else if 0xF0 ≤ b && b ≤ 0xF4 then
      match rest with
      | c1 :: c2 :: c3 :: rest' =>
        if (isCont c1 && isCont c2 && isCont c3) &&
           (b ≠ 0xF0 || 0x90 ≤ c1) && (b ≠ 0xF4 || c1 ≤ 0x8F) then
          (utf8Decode rest').map
            (fun cs =>
              Char.ofNat ((b - 0xF0) * 0x40000 + (c1 - 0x80) * 0x1000 +
                          (c2 - 0x80) * 0x40 + (c3 - 0x80)) :: cs)
        else none
      | _ => none
    else none

/-- Python `bytes.decode()`: strict UTF-8, raising `UnicodeDecodeError` on
invalid input. -/
def decodeBytes (bs : List Nat) : Except PyExc String :=
  match utf8Decode bs with
  | some cs => .ok (String.mk cs)
  | none => .error .unicodeDecodeError

/-! ### The per-connection handler loop (`JSONRPCHandler.handle`)

One iteration of the `while True:` loop.  The outcomes of the calls the
iteration makes (poll, recv, the request callback, `lock.acquire(True, 10)`,
`dispatcher.dispatch`, `Request(self.data)`, `sendall`) are supplied as an
`IterEnv`.  The `response` local variable of `handle` survives across loop
iterations and is only (re)assigned on some paths, so it is threaded through
as a register of type `Option ResponseV` (`none` until first assigned). -/

/-- Outcomes of the calls one loop iteration of `handle` makes. -/
structure IterEnv where
  /-- `poller.poll(500)` reported the connection readable. -/
  pollReadable : Bool
  /-- `self.server.STOP_EVENT.is_set()`. -/
  stopSet : Bool
  /-- `self.request.recv(1024)`: the received bytes, or the exception it raised. -/
  recvOutcome : Except PyExc (List Nat)
  /-- Exception raised by `self.server._request_cb(self.data)`, if any
  (`none` also covers the case of no registered callback). -/
  cbRaises : Option PyExc
  /-- `self.server._client_lock.acquire(True, 10)` returned `True`. -/
  lockAcquired : Bool
  /-- `dispatcher.dispatch(self.server._methods, self.data)`: the response it
  returned, or the exception it raised. -/
  dispatchOutcome : Except PyExc ResponseV
  /-- `Request(self.data)` in the lock-timeout branch: the request id of the
  parsed request (`none` when the request carries no id), or the exception
  parsing raised. -/
  parseOutcome : Except PyExc (Option JVal)
  /-- Exception raised by `self.request.sendall(msg)`, if any. -/
  sendOutcome : Option PyExc

/-- Result of the read path (lines 38-47): `poller.poll(500)`, then either
`recv(1024).strip().decode()` and the emptiness test, or the stop-event
check. -/
inductive ReadOutcome where
  | gotData (s : String)
  | closeConn
  | keepWaiting
  | raised (e : PyExc)

/-- The read path of one iteration.  `recv`, `strip` and `decode` run
outside any `try`, so an exception here escapes `handle` (`raised`). -/
def readPhase (env : IterEnv) : ReadOutcome :=
  if env.pollReadable then
    match env.recvOutcome with
    | .error e => .raised e
    | .ok chunk =>
      match decodeBytes (stripBytes chunk) with
      | .error e => .raised e
      | .ok s => if s = "" then .closeConn else .gotData s
  else if env.stopSet then .closeConn
  else .keepWaiting

/-- The body of the `try:` at lines 50-68, i.e. the code the
`except Exception` at line 69 guards.  Returns the value of the
`lock_acquired` flag on exit, whether `dispatcher.dispatch` was invoked, and
either the `ResponseV` assigned to `response` or the exception that escaped
the body (in which case `response` is left unassigned by this iteration). -/
def dispatchBody (env : IterEnv) : Bool × Bool × Except PyExc ResponseV :=
  match env.cbRaises with
  | some e => (false, false, .error e)
  | none =>
    if env.lockAcquired then
      match env.dispatchOutcome with
      | .ok r => (true, true, .ok r)
      | .error e => (true, true, .error e)
    else
      match env.parseOutcome with
      | .ok rid =>
        (false, false, .ok (.err rid (-32000) "Timed out waiting for lock"))
      | .error e => (false, false, .error e)

/-- Observable result of the dispatch block (lines 49-74) after its
`except Exception` (which only logs) and its `finally` (which releases the
lock exactly when `lock_acquired` is set). -/
structure DispatchResult where
  /-- New value assigned to `response`, if the body assigned one. -/
  response : Option ResponseV
  /-- `dispatcher.dispatch` was invoked. -/
  dispatched : Bool
  /-- The shared client lock was acquired in this iteration. -/
  acquired : Bool
  /-- The shared client lock was released in this iteration. -/
  released : Bool

/-- The dispatch block: run `dispatchBody` under
`except Exception: log` / `finally: if lock_acquired: release()`. -/
def dispatchPhase (env : IterEnv) : DispatchResult :=
  match dispatchBody env with
  | (lockAcq, disp, .ok r) =>
    { response := some r, dispatched := disp, acquired := lockAcq, released := lockAcq }
  | (lockAcq, disp, .error _) =>
    { response := none, dispatched := disp, acquired := lockAcq, released := lockAcq }

/-- The body of the `try:` at lines 76-80: `json.dumps(response.json_debug)`
raises `NameError` when `response` was never assigned on this connection;
otherwise `sendall` may raise.  On success the sent response is returned. -/
def respondBody (reg : Option ResponseV) (sendOutcome : Option PyExc) :
    Except PyExc ResponseV :=
  match reg with
  | none => .error .nameError
  | some r =>
    match sendOutcome with
    | none => .ok r
    | some e => .error e

/-- What the handler does next after one loop iteration. -/
inductive NextState where
  /-- The loop is re-entered with the given value of the `response` register. -/
  | continueLoop (reg : Option ResponseV)
  /-- `break`: the handler returns and the connection is closed. -/
  | closeConn
  /-- An exception escaped `handle`, terminating its loop abnormally. -/
  | propagate (e : PyExc)

/-- All observables of one loop iteration. -/
structure IterObs where
  next : NextState
  /-- Responses successfully written to the connection in this iteration. -/
  sent : List ResponseV
  dispatched : Bool
  acquired : Bool
  released : Bool

/-- The value of the `response` register after the dispatch block: the
newly assigned response if the body assigned one, else the old value. -/
def nextRegister (reg : Option ResponseV) (env : IterEnv) : Option ResponseV :=
  match (dispatchPhase env).response with
  | some r => some r
  | none => reg

/-- One full iteration of the `while True:` loop of `handle`, threading the
`response` register: read path, dispatch block, respond block
(`except BrokenPipeError: break` / `except Exception: log`). -/
def handleLoopBody (reg : Option ResponseV) (env : IterEnv) : IterObs :=
  match readPhase env with
  | .raised e => ⟨.propagate e, [], false, false, false⟩
  | .closeConn => ⟨.closeConn, [], false, false, false⟩
  | .keepWaiting => ⟨.continueLoop reg, [], false, false, false⟩
  | .gotData _ =>
    let d := dispatchPhase env
    match respondBody (nextRegister reg env) env.sendOutcome with
    | .ok r => ⟨.continueLoop (nextRegister reg env), [r], d.dispatched, d.acquired, d.released⟩
    | .error .brokenPipe => ⟨.closeConn, [], d.dispatched, d.acquired, d.released⟩
    | .error _ => ⟨.continueLoop (nextRegister reg env), [], d.dispatched, d.acquired, d.released⟩

/-- Initial value of the `response` register: unassigned when a connection's
handler starts. -/
def initialRegister : Option ResponseV := none

/-! ### Server construction (`UnixSocketJSONRPCServer.__init__`, lines 87-104)

When the socket file exists, a probe connection is attempted inside
`try: ... except ConnectionRefusedError:`; a successful connect raises
`DaemonRunningError` (which that `except` does not catch), a refused connect
unlinks the stale file, and any other connect error propagates. -/

/-- Outcome of the probe `sock.connect(SOCKET_FILE_NAME)`. -/
inductive ProbeOutcome where
  | connectOk
  | connectRefused
  | raised (e : PyExc)
deriving DecidableEq

/-- Result of `UnixSocketJSONRPCServer.__init__`. -/
inductive InitResult where
  /-- `DaemonRunningError` was raised; `super().__init__` never ran, so no
  listening socket was bound. -/
  | raisedDaemonRunning
  /-- Construction reached `super().__init__`, binding a fresh listening
  socket; the flag records whether a stale socket file was unlinked first. -/
  | bound (staleUnlinked : Bool)
  /-- Some other exception propagated out of the constructor. -/
  | raisedOther (e : PyExc)
deriving DecidableEq

/-- `UnixSocketJSONRPCServer.__init__`: the liveness probe and bind. -/
def serverInit (fileExists : Bool) (probe : ProbeOutcome) : InitResult :=
  if fileExists then
    match probe with
    | .connectOk => .raisedDaemonRunning
    | .connectRefused => .bound true
    | .raised e => .raisedOther e
  else .bound false

/-! ### Client proxy (`UnixSocketServerProxy`, lines 107-155) -/

/-- Outcome of the constructor's `self.sock.connect(SOCKET_FILE_NAME)`. -/
inductive ConnectOutcome where
  | ok
  | fileNotFound
  | connectionRefused
  | raised (e : PyExc)
deriving DecidableEq

/-- Result of `UnixSocketServerProxy.__init__`. -/
inductive ProxyInitResult where
  | connected
  | raisedDaemonNotRunning
  | raisedOther (e : PyExc)
deriving DecidableEq

/-- `UnixSocketServerProxy.__init__`: connect, mapping `FileNotFoundError`
and `ConnectionRefusedError` to `DaemonNotRunningError`. -/
def proxyInit : ConnectOutcome → ProxyInitResult
  | .ok => .connected
  | .fileNotFound => .raisedDaemonNotRunning
  | .connectionRefused => .raisedDaemonNotRunning
  | .raised e => .raisedOther e

/-- Errors `send_message` can surface. -/
inductive ProxyErr where
  /-- `DaemonNotRunningError` raised by the `except ConnectionError` clause. -/
  | daemonNotRunning
  /-- Some other exception propagated. -/
  | raised (e : PyExc)
  /-- The reply loop ran out of data: `recv` blocks forever in the source;
  marker for that divergence. -/
  | blockedOnRecv
deriving DecidableEq

/-- Environment of one `send_message` call: the outcome of `sendall` and the
successive byte chunks `self.sock.recv(8192)` returns. -/
structure SendEnv where
  sendOutcome : Option PyExc
  replies : List (List Nat)

/-- The reply-accumulation loop of `send_message` (lines 145-153): decode
each chunk, append it to `rv`, stop once the chunk's last byte is a newline
(`reply[-1] == 10`; an empty chunk makes that indexing raise). -/
def recvLoop : List (List Nat) → String → Except ProxyErr String
  | [], _ => .error .blockedOnRecv
  | r :: rest, acc =>
    match decodeBytes r with
    | .error e => .error (.raised e)
    | .ok s =>
      match r.getLast? with
      | none => .error (.raised .indexError)
      | some b => if b = 10 then .ok (acc ++ s) else recvLoop rest (acc ++ s)

/-- `UnixSocketServerProxy.send_message`: frame and send, re-raising any
`ConnectionError` as `DaemonNotRunningError`; then, only when a reply is
expected, run the reply loop. -/
def send_message (env : SendEnv) (expect_reply : Bool) : Except ProxyErr String :=
  match env.sendOutcome with
  | some e =>
    if e.isConnectionError then .error .daemonNotRunning else .error (.raised e)
  | none =>
    if expect_reply then recvLoop env.replies "" else .ok ""

/-! ### Proxy method calls (`UnixSocketServerProxy.__getattr__`, lines 123-132) -/

/-- Python truthiness of a JSON value, as tested by
`if kwargs.get('response', True):`. -/
def pyTruthy : JVal → Bool
  | .null => false
  | .jbool b => b
  | .jnum n => n ≠ 0
  | .jstr s => s ≠ ""
  | .jarr xs => !xs.isEmpty
  | .jobj fs => !fs.isEmpty

/-- `kwargs.get('response', True)` interpreted as a boolean. -/
def wantsResponse (kwargs : List (String × JVal)) : Bool :=
  match kwargs.lookup "response" with
  | some v => pyTruthy v
  | none => true

/-- The params object of the spec's calling convention: the positional args
and the keyword kwargs wrapped together in one params object,
`[dict(args=args, kwargs=kwargs)]`. -/
def wrappedParams (args : List JVal) (kwargs : List (String × JVal)) : List JVal :=
  [JVal.jobj [("args", .jarr args), ("kwargs", .jobj kwargs)]]

/-- The call `attr_handler` makes into the `jsonrpcclient` base class:
either `self.request(name, params)` or `self.notify(name, *args, **kwargs)`,
recording exactly the data handed over. -/
inductive LibCall where
  | request (method : String) (params : List JVal)
  | notify (method : String) (args : List JVal) (kwargs : List (String × JVal))

/-- `attr_handler` inside `UnixSocketServerProxy.__getattr__`. -/
def attr_handler (name : String) (args : List JVal)
    (kwargs : List (String × JVal)) : LibCall :=
  if wantsResponse kwargs then
    .request name (wrappedParams args kwargs)
  else
    .notify name args kwargs

/-- Modelled from the spec: the message the `jsonrpcclient` `Server` base
class (not part of this repository's sources) builds for a `LibCall` —
`request` attaches a fresh request id and waits for a reply
(`send_message` with `expect_reply` true), `notify` attaches no id and does
not wait; each forwards exactly the params data it was handed. -/
structure LibMessage where
  method : String
  requestId : Option Nat
  expectReply : Bool
  /-- Positional params data handed to the library call. -/
  paramsArgs : List JVal
  /-- Keyword params data handed to the library call. -/
  paramsKwargs : List (String × JVal)

/-- Modelled from the spec: encoding of a `LibCall` by the `jsonrpcclient`
base class (see `LibMessage`). -/
def libEncode (fresh : Nat) : LibCall → LibMessage
  | .request m ps => ⟨m, some fresh, true, ps, []⟩
  | .notify m args kwargs => ⟨m, none, false, args, kwargs⟩

/-! ### The dispatcher (spec §4.4) -/

/-- A parsed JSON-RPC request as the dispatcher sees it. -/
structure ParsedRequest where
  method : String
  params : JVal
  requestId : Option JVal

/-- Modelled from the spec: the Dispatcher component (`jsonrpcserver`'s
`dispatcher.dispatch`, not part of this repository's sources).  It looks the
method up in the registry — unknown method gives a method-not-found error —
and invokes the operation; any error the operation raises is wrapped,
preserving its human-readable message, into the response's error field and
never propagates. -/
def dispatch (registry : List (String × (JVal → Except String JVal)))
    (req : ParsedRequest) : ResponseV :=
  match registry.lookup req.method with
  | none => .err req.requestId (-32601) "Method not found"
  | some op =>
    match op req.params with
    | .ok v => .result req.requestId v
    | .error msg => .err req.requestId (-32603) msg

/-! ### Two concurrent handlers and the shared client lock (spec §5)

`ThreadingMixIn` runs one `handle` per connection.  For a pair of connected
clients, each handler thread goes through: receive a request (`idle` →
`waiting`), call `self.server._client_lock.acquire(True, 10)` — succeeding
only when no thread holds the lock (`waiting` → `dispatching`, the only
state in which `dispatcher.dispatch` runs) or timing out (`waiting` →
`done`) — and, after dispatching, release the lock in the `finally`
(`dispatching` → `done`).  Entry to and exit from the dispatching section
are recorded in an event trace. -/

/-- Phase of one handler thread with respect to a single request. -/
inductive HPhase where
  | idle
  | waiting
  | dispatching
  | done
deriving DecidableEq

/-- Entry/exit events of the dispatched operation, as observed by the
method registry. -/
inductive LockEvent where
  | enter (i : Fin 2)
  | leave (i : Fin 2)
deriving DecidableEq

/-- State of the daemon serving two connected clients: the holder of the
shared client lock, each handler thread's phase, and the trace of
operation entry/exit events. -/
structure Sys where
  lockHolder : Option (Fin 2)
  phase : Fin 2 → HPhase
  trace : List LockEvent

/-- Initial state: lock free, both handlers idle, empty trace. -/
def initSys : Sys := { lockHolder := none, phase := fun _ => .idle, trace := [] }

/-- Interleaved small-step semantics of the two handler threads. -/
inductive SysStep : Sys → Sys → Prop where
  /-- A handler reads a request and enters the dispatch block. -/
  | recvReq (s : Sys) (i : Fin 2) (h : s.phase i = .idle) :
      SysStep s { s with phase := Function.update s.phase i .waiting }
  /-- `acquire(True, 10)` returns `True`: only possible while no thread
  holds the lock; the thread enters the dispatching section. -/
  | acquireOk (s : Sys) (i : Fin 2) (h : s.phase i = .waiting)
      (hfree : s.lockHolder = none) :
      SysStep s { lockHolder := some i,
                  phase := Function.update s.phase i .dispatching,
                  trace := s.trace ++ [.enter i] }
  /-- `acquire(True, 10)` times out: the thread answers with the timeout
  error and never dispatches. -/
  | acquireTimeout (s : Sys) (i : Fin 2) (h : s.phase i = .waiting) :
      SysStep s { s with phase := Function.update s.phase i .done }
  /-- The dispatched operation finishes and the `finally` releases the
  lock the thread holds. -/
  | finishDispatch (s : Sys) (i : Fin 2) (h : s.phase i = .dispatching)
      (hhold : s.lockHolder = some i) :
      SysStep s { lockHolder := none,
                  phase := Function.update s.phase i .done,
                  trace := s.trace ++ [.leave i] }

/-- States reachable from `initSys`. -/
def Reachable (s : Sys) : Prop := Relation.ReflTransGen SysStep initSys s

/-- A trace is serialized for a given current lock holder: it is a
concatenation of complete `enter i, leave i` blocks, followed by a single
unmatched `enter i` exactly when thread `i` currently holds the lock.  In
particular the two operations' executions never interleave. -/
inductive Serialized : List LockEvent → Option (Fin 2) → Prop where
  | nil : Serialized [] none
  | openBlock (tr : List LockEvent) (i : Fin 2) (h : Serialized tr none) :
      Serialized (tr ++ [.enter i]) (some i)
  | closeBlock (tr : List LockEvent) (i : Fin 2) (h : Serialized tr (some i)) :
      Serialized (tr ++ [.leave i]) none

/-- The inductive invariant: a thread is in its dispatching section exactly
when it holds the shared client lock, and the event trace is serialized. -/
def MutexInv (s : Sys) : Prop :=
  (∀ i, s.phase i = .dispatching ↔ s.lockHolder = some i) ∧
  Serialized s.trace s.lockHolder

/-! ## Theorems -/

/-- The invariant holds initially. -/
theorem mutexInv_initSys : MutexInv initSys := by
  constructor
  · intro i
    constructor
    · intro h; exact HPhase.noConfusion h
    · intro h; exact Option.noConfusion h
  · exact Serialized.nil

/-- The invariant is preserved by every step. -/
theorem mutexInv_step {s t : Sys} (hst : SysStep s t) (hinv : MutexInv s) :
    MutexInv t := by
  obtain ⟨hiff, hser⟩ := hinv
  cases hst with
  | recvReq i h =>
    refine ⟨fun j => ?_, hser⟩
    by_cases hji : j = i
    · subst hji
      simp only [Function.update_same]
      constructor
      · intro hc; exact HPhase.noConfusion hc
      · intro hh
        have := (hiff j).mpr hh
        rw [h] at this
        exact HPhase.noConfusion this
    · simp only [Function.update_noteq hji]
      exact hiff j
  | acquireOk i h hfree =>
    constructor
    · intro j
      by_cases hji : j = i
      · subst hji
        simp only [Function.update_same]
      · simp only [Function.update_noteq hji]
        constructor
        · intro hd
          have := (hiff j).mp hd
          rw [hfree] at this
          exact Option.noConfusion this
        · intro hh
          have : some i = some j := hh
          exact absurd (Option.some.inj this) (fun hij => hji hij.symm)
    · exact Serialized.openBlock _ i (hfree ▸ hser)
  | acquireTimeout i h =>
    refine ⟨fun j => ?_, hser⟩
    by_cases hji : j = i
    · subst hji
      simp only [Function.update_same]
      constructor
      · intro hc; exact HPhase.noConfusion hc
      · intro hh
        have := (hiff j).mpr hh
        rw [h] at this
        exact HPhase.noConfusion this
    · simp only [Function.update_noteq hji]
      exact hiff j
  | finishDispatch i h hhold =>
    constructor
    · intro j
      by_cases hji : j = i
      · subst hji
        simp only [Function.update_same]
        constructor
        · intro hc; exact HPhase.noConfusion hc
        · intro hh; exact Option.noConfusion hh
      · simp only [Function.update_noteq hji]
        constructor
        · intro hd
          have h1 := (hiff j).mp hd
          rw [hhold] at h1
          exact absurd (Option.some.inj h1) (fun hij => hji hij.symm)
        · intro hh; exact Option.noConfusion hh
    · exact Serialized.closeBlock _ i (hhold ▸ hser)

/-- The invariant holds in every reachable state. -/
theorem mutexInv_of_reachable (s : Sys) (hs : Reachable s) : MutexInv s := by
  induction hs with
  | refl => exact mutexInv_initSys
  | tail _ hstep ih => exact mutexInv_step hstep ih

/-- C2: in every reachable state of two concurrently connected clients, a
registered operation is only executed by a handler that holds the single
shared client lock, at most one handler is in its dispatching section at a
time, and the trace of operation entry/exit events is serialized: the full
execution of one dispatched operation precedes or follows the other's,
never interleaving. -/
theorem c2_dispatch_serialized (s : Sys) (hs : Reachable s) :
    (∀ i, s.phase i = .dispatching → s.lockHolder = some i) ∧
    (∀ i j, s.phase i = .dispatching → s.phase j = .dispatching → i = j) ∧
    Serialized s.trace s.lockHolder := by
  obtain ⟨hiff, hser⟩ := mutexInv_of_reachable s hs
  refine ⟨fun i h => (hiff i).mp h, fun i j hi hj => ?_, hser⟩
  have h1 := (hiff i).mp hi
  have h2 := (hiff j).mp hj
  rw [h1] at h2
  exact Option.some.inj h2

/-- Witness for C2 at the initial state, reachable by the empty run. -/
theorem c2_dispatch_serialized_witness :
    Serialized initSys.trace initSys.lockHolder :=
  (c2_dispatch_serialized initSys Relation.ReflTransGen.refl).2.2

/-- C1: when a request is read and the handler fails to acquire the shared
client lock within the fixed 10-unit timeout (and the request callback did
not raise), the handler builds an `ErrorResponse` with the distinguished
code `-32000` and message `"Timed out waiting for lock"`, carrying the
request's id when one is present; the dispatcher (and hence the registered
operation) is never invoked, and when the write succeeds exactly that error
response is sent. -/
theorem c1_lock_timeout (reg : Option ResponseV) (env : IterEnv) (s : String)
    (rid : Option JVal)
    (hread : readPhase env = .gotData s)
    (hcb : env.cbRaises = none)
    (hlock : env.lockAcquired = false)
    (hparse : env.parseOutcome = .ok rid) :
    (dispatchPhase env).response =
      some (.err rid (-32000) "Timed out waiting for lock") ∧
    (handleLoopBody reg env).dispatched = false ∧
    (env.sendOutcome = none →
      (handleLoopBody reg env).sent =
        [ResponseV.err rid (-32000) "Timed out waiting for lock"]) := by
  have hd : dispatchPhase env =
      { response := some (.err rid (-32000) "Timed out waiting for lock"),
        dispatched := false, acquired := false, released := false } := by
    simp [dispatchPhase, dispatchBody, hcb, hlock, hparse]
  have hreg : nextRegister reg env =
      some (.err rid (-32000) "Timed out waiting for lock") := by
    simp [nextRegister, hd]
  refine ⟨by rw [hd], ?_, ?_⟩
  · simp only [handleLoopBody, hread, hreg]
    cases hso : env.sendOutcome with
    | none => simp [respondBody, hd]
    | some e => cases e <;> simp [respondBody, hd]
  · intro hso
    simp [handleLoopBody, hread, hreg, hso, respondBody]

/-- Witness for C1 at a concrete environment: readable data `"f"`, no
callback exception, lock acquisition failed, request id `1`, write ok. -/
theorem c1_lock_timeout_witness :
    (handleLoopBody none ⟨true, false, .ok [102], none, false,
        .ok (.result none .null), .ok (some (.jnum 1)), none⟩).dispatched = false ∧
    (handleLoopBody none ⟨true, false, .ok [102], none, false,
        .ok (.result none .null), .ok (some (.jnum 1)), none⟩).sent =
      [ResponseV.err (some (.jnum 1)) (-32000) "Timed out waiting for lock"] := by
  have h := c1_lock_timeout none
      ⟨true, false, .ok [102], none, false,
        .ok (.result none .null), .ok (some (.jnum 1)), none⟩
      "f" (some (.jnum 1)) rfl rfl rfl rfl
  exact ⟨h.2.1, h.2.2 rfl⟩

/-- C8: when a response value is available to write, a broken pipe while
writing makes the handler `break` (the connection closes and the response is
lost), any other write error is logged and the loop is re-entered with the
connection open, and after a successful write the loop is always
re-entered — so the handler only ever exits its loop via the close
transitions. -/
theorem c8_respond_transitions (reg : Option ResponseV) (env : IterEnv)
    (s : String) (r : ResponseV)
    (hread : readPhase env = .gotData s)
    (hreg : nextRegister reg env = some r) :
    (env.sendOutcome = some .brokenPipe →
      (handleLoopBody reg env).next = .closeConn ∧
      (handleLoopBody reg env).sent = []) ∧
    (∀ e, env.sendOutcome = some e → e ≠ .brokenPipe →
      (handleLoopBody reg env).next = .continueLoop (some r) ∧
      (handleLoopBody reg env).sent = []) ∧
    (env.sendOutcome = none →
      (handleLoopBody reg env).next = .continueLoop (some r) ∧
      (handleLoopBody reg env).sent = [r]) := by
  refine ⟨?_, ?_, ?_⟩
  · intro hso
    simp [handleLoopBody, hread, hreg, hso, respondBody]
  · intro e hso hne
    simp only [handleLoopBody, hread, hreg, hso, respondBody]
    cases e <;> simp_all
  · intro hso
    simp [handleLoopBody, hread, hreg, hso, respondBody]

/-- Witness for C8 at a concrete environment: a dispatched result is
available and the write raises a non-broken-pipe error, so the loop is
re-entered with nothing sent. -/
theorem c8_respond_transitions_witness :
    (handleLoopBody none ⟨true, false, .ok [102], none, true,
        .ok (.result (some (.jnum 3)) .null), .ok none,
        some (.other "oserror")⟩).next =
      .continueLoop (some (.result (some (.jnum 3)) .null)) ∧
    (handleLoopBody none ⟨true, false, .ok [102], none, true,
        .ok (.result (some (.jnum 3)) .null), .ok none,
        some (.other "oserror")⟩).sent = [] := by
  have h := c8_respond_transitions none
      ⟨true, false, .ok [102], none, true,
        .ok (.result (some (.jnum 3)) .null), .ok none, some (.other "oserror")⟩
      "f" (.result (some (.jnum 3)) .null) rfl rfl
  exact h.2.1 (.other "oserror") rfl (by simp)

/-- C9: when the dispatch block raises before `response` is assigned (the
request callback raised, or `Request(self.data)` raised in the lock-timeout
branch), the iteration leaves the `response` register unchanged; so on the
first request of a connection nothing is sent (the `NameError` from the
unassigned variable is swallowed), and on a later request the previously
built response — its id included — is re-sent instead of a response for the
current request. -/
theorem c9_stale_response (reg : Option ResponseV) (env : IterEnv)
    (s : String) (e : PyExc)
    (hread : readPhase env = .gotData s)
    (hfail : env.cbRaises = some e ∨
      (env.cbRaises = none ∧ env.lockAcquired = false ∧
        env.parseOutcome = .error e))
    (hsend : env.sendOutcome = none) :
    (dispatchPhase env).response = none ∧
    (reg = initialRegister →
      (handleLoopBody reg env).sent = [] ∧
      (handleLoopBody reg env).next = .continueLoop initialRegister) ∧
    (∀ rPrev, reg = some rPrev →
      (handleLoopBody reg env).sent = [rPrev] ∧
      (handleLoopBody reg env).next = .continueLoop (some rPrev)) := by
  have hd : (dispatchPhase env).response = none := by
    rcases hfail with hcb | ⟨hcb, hlock, hparse⟩
    · simp [dispatchPhase, dispatchBody, hcb]
    · simp [dispatchPhase, dispatchBody, hcb, hlock, hparse]
  have hreg : nextRegister reg env = reg := by
    simp [nextRegister, hd]
  refine ⟨hd, ?_, ?_⟩
  · intro h0
    subst h0
    have hreg2 : nextRegister none env = none := hreg
    simp [handleLoopBody, hread, hreg2, initialRegister, respondBody]
  · intro rPrev hPrev
    subst hPrev
    simp [handleLoopBody, hread, hreg, hsend, respondBody]

/-- Witness for C9: with a previously built response for id `7` in the
register and a request callback that raises, the handler re-sends the stale
id-`7` response. -/
theorem c9_stale_response_witness :
    (handleLoopBody (some (.result (some (.jnum 7)) .null))
      ⟨true, false, .ok [102], some (.other "callback boom"), false,
        .ok (.result none .null), .ok none, none⟩).sent =
      [ResponseV.result (some (.jnum 7)) .null] := by
  have h := c9_stale_response (some (.result (some (.jnum 7)) .null))
      ⟨true, false, .ok [102], some (.other "callback boom"), false,
        .ok (.result none .null), .ok none, none⟩
      "f" (.other "callback boom") rfl (Or.inl rfl) rfl
  exact (h.2.2 _ rfl).1

/-- C10: because the handler strips whitespace from the received chunk
before the emptiness test, a chunk of only whitespace bytes (for example a
bare newline) makes the handler `break` out of its loop — no dispatch, no
lock activity, nothing sent — exactly as it does for an empty read (peer
close). -/
theorem c10_whitespace_is_close (reg : Option ResponseV) (env : IterEnv)
    (bs : List Nat)
    (hp : env.pollReadable = true)
    (hr : env.recvOutcome = .ok bs)
    (hws : ∀ b ∈ bs, isWsByte b) :
    handleLoopBody reg env =
      { next := .closeConn, sent := [], dispatched := false,
        acquired := false, released := false } ∧
    handleLoopBody reg env = handleLoopBody reg { env with recvOutcome := .ok [] } := by
  have hstrip : stripBytes bs = [] := by
    have h1 : bs.dropWhile isWsByte = [] := List.dropWhile_eq_nil_iff.mpr hws
    simp [stripBytes, h1]
  have hdec : decodeBytes ([] : List Nat) = .ok "" := rfl
  have hread : readPhase env = .closeConn := by
    simp [readPhase, hp, hr, hstrip, hdec]
  have hread0 : readPhase { env with recvOutcome := .ok [] } = .closeConn := by
    have hstrip0 : stripBytes ([] : List Nat) = [] := rfl
    simp [readPhase, hp, hstrip0, hdec]
  constructor
  · simp [handleLoopBody, hread]
  · simp [handleLoopBody, hread, hread0]

/-- Witness for C10: a bare newline chunk closes the connection. -/
theorem c10_whitespace_is_close_witness :
    handleLoopBody none ⟨true, false, .ok [10], none, true,
        .ok (.result none .null), .ok none, none⟩ =
      { next := .closeConn, sent := [], dispatched := false,
        acquired := false, released := false } :=
  (c10_whitespace_is_close none
    ⟨true, false, .ok [10], none, true, .ok (.result none .null), .ok none, none⟩
    [10] rfl rfl (by decide)).1

/-- C7: in every loop iteration the shared client lock is released exactly
when it was acquired in that iteration (the `finally` clause), on every
path — including when the request callback, the dispatcher, the request
parse or the write raises — and it is acquired exactly when the callback
did not raise and `acquire(True, 10)` succeeded; so no path exits a
request's handling still holding the lock. -/
theorem c7_release_iff_acquire (reg : Option ResponseV) (env : IterEnv) :
    (handleLoopBody reg env).released = (handleLoopBody reg env).acquired ∧
    (dispatchPhase env).released = (dispatchPhase env).acquired ∧
    ((dispatchPhase env).acquired = true ↔
      env.cbRaises = none ∧ env.lockAcquired = true) := by
  have hda : (dispatchPhase env).released = (dispatchPhase env).acquired := by
    rcases hdb : dispatchBody env with ⟨a, d, r⟩
    cases r <;> simp [dispatchPhase, hdb]
  have hacq : (dispatchPhase env).acquired = true ↔
      env.cbRaises = none ∧ env.lockAcquired = true := by
    cases hcb : env.cbRaises with
    | some e => simp [dispatchPhase, dispatchBody, hcb]
    | none =>
      cases hl : env.lockAcquired with
      | true =>
        cases hdo : env.dispatchOutcome <;>
          simp [dispatchPhase, dispatchBody, hcb, hl, hdo]
      | false =>
        cases hpo : env.parseOutcome <;>
          simp [dispatchPhase, dispatchBody, hcb, hl, hpo]
  refine ⟨?_, hda, hacq⟩
  cases hread : readPhase env with
  | raised e => simp [handleLoopBody, hread]
  | closeConn => simp [handleLoopBody, hread]
  | keepWaiting => simp [handleLoopBody, hread]
  | gotData s =>
    simp only [handleLoopBody, hread]
    rcases respondBody (nextRegister reg env) env.sendOutcome with e | r
    · cases e <;> simp [hda]
    · simp [hda]

/-- C3: at server construction, if a file exists at the socket path and the
probe connection succeeds, the constructor raises `DaemonRunningError` and
startup aborts before binding; if the file exists but the probe fails with
connection refused, the stale file is unlinked and construction proceeds to
bind a fresh listening socket. -/
theorem c3_liveness_probe :
    serverInit true .connectOk = .raisedDaemonRunning ∧
    serverInit true .connectRefused = .bound true :=
  ⟨rfl, rfl⟩

/-- C5: the proxy constructor raises `DaemonNotRunningError` exactly when
the connect fails with `FileNotFoundError` or `ConnectionRefusedError`; and
in `send_message` a connection-level failure while sending (any member of
the `ConnectionError` hierarchy) is re-raised as `DaemonNotRunningError`,
while a non-connection error propagates as itself. -/
theorem c5_daemon_not_running :
    (∀ o, proxyInit o = .raisedDaemonNotRunning ↔
      (o = .fileNotFound ∨ o = .connectionRefused)) ∧
    (∀ (env : SendEnv) (er : Bool) (e : PyExc), env.sendOutcome = some e →
      e.isConnectionError = true →
      send_message env er = .error .daemonNotRunning) ∧
    (∀ (env : SendEnv) (er : Bool) (e : PyExc), env.sendOutcome = some e →
      e.isConnectionError = false →
      send_message env er = .error (.raised e)) := by
  refine ⟨fun o => ?_, fun env er e hso hc => ?_, fun env er e hso hc => ?_⟩
  · cases o <;> simp [proxyInit]
  · simp [send_message, hso, hc]
  · simp [send_message, hso, hc]

/-- Witness for C5: a missing socket file at connect time, and a broken
pipe while sending, both surface as `DaemonNotRunningError`. -/
theorem c5_daemon_not_running_witness :
    proxyInit .fileNotFound = .raisedDaemonNotRunning ∧
    send_message ⟨some .brokenPipe, []⟩ true = .error .daemonNotRunning :=
  ⟨(c5_daemon_not_running.1 .fileNotFound).mpr (Or.inl rfl),
   c5_daemon_not_running.2.1 ⟨some .brokenPipe, []⟩ true .brokenPipe rfl rfl⟩

/-- C6 counterexample: at a concrete notify call (`response=False`), the
proxy hands the library its positional args and kwargs directly — it does
not hand over the args/kwargs-wrapped params object the claim says notify
calls use. -/
theorem c6_counterexample :
    attr_handler "sendTo" [JVal.jstr "addr"] [("response", JVal.jbool false)] ≠
      LibCall.notify "sendTo"
        (wrappedParams [JVal.jstr "addr"] [("response", JVal.jbool false)]) [] := by
  have hl : attr_handler "sendTo" [JVal.jstr "addr"]
      [("response", JVal.jbool false)] =
      LibCall.notify "sendTo" [JVal.jstr "addr"]
        [("response", JVal.jbool false)] := rfl
  rw [hl]
  intro h
  injection h with h1 h2 h3
  exact List.noConfusion h3

/-- C6 as amended: a call with a response wanted wraps args and kwargs into
the one params object and, per the modelled library layer, gets a fresh
request id; a notify call (response not wanted) hands its args and kwargs
to the library directly — unwrapped — and omits the id; and `send_message`
without an expected reply returns at once without reading from the
connection. -/
theorem c6_call_convention (name : String) (args : List JVal)
    (kwargs : List (String × JVal)) (fresh : Nat) (env : SendEnv) :
    (wantsResponse kwargs = true →
      attr_handler name args kwargs = .request name (wrappedParams args kwargs) ∧
      (libEncode fresh (attr_handler name args kwargs)).requestId = some fresh ∧
      (libEncode fresh (attr_handler name args kwargs)).expectReply = true) ∧
    (wantsResponse kwargs = false →
      attr_handler name args kwargs = .notify name args kwargs ∧
      (libEncode fresh (attr_handler name args kwargs)).requestId = none ∧
      (libEncode fresh (attr_handler name args kwargs)).expectReply = false) ∧
    (env.sendOutcome = none → send_message env false = .ok "") := by
  refine ⟨fun hw => ?_, fun hw => ?_, fun hso => ?_⟩
  · simp [attr_handler, hw, libEncode]
  · simp [attr_handler, hw, libEncode]
  · simp [send_message, hso]

/-- Witness for C6 as amended, at a concrete request call and a concrete
notify call. -/
theorem c6_call_convention_witness :
    attr_handler "confirmedBalance" [] [] =
      .request "confirmedBalance" (wrappedParams [] []) ∧
    attr_handler "sendTo" [JVal.jstr "addr"] [("response", JVal.jbool false)] =
      .notify "sendTo" [JVal.jstr "addr"] [("response", JVal.jbool false)] ∧
    send_message ⟨none, []⟩ false = .ok "" :=
  ⟨((c6_call_convention "confirmedBalance" [] [] 0 ⟨none, []⟩).1 rfl).1,
   ((c6_call_convention "sendTo" [JVal.jstr "addr"]
      [("response", JVal.jbool false)] 0 ⟨none, []⟩).2.1 rfl).1,
   (c6_call_convention "sendTo" [] [] 0 ⟨none, []⟩).2.2 rfl⟩

/-- C4 counterexample: it is not true that no per-request failure ever
propagates out of the connection handler loop — the chunk read
`recv(1024).strip().decode()` runs outside every `try`, so on a request
whose bytes are not valid UTF-8 (here the single byte `0xFF`) the decode
failure escapes `handle` and terminates the handler loop abnormally. -/
theorem c4_counterexample :
    ¬ (∀ (reg : Option ResponseV) (env : IterEnv) (e : PyExc),
        (handleLoopBody reg env).next ≠ .propagate e) := by
  intro h
  exact h none
    ⟨true, false, .ok [255], none, true, .ok (.result none .null), .ok none, none⟩
    .unicodeDecodeError rfl

/-- C4 as amended: once a request chunk has been read and decoded, no
failure in the dispatch or respond blocks — the request callback, the
dispatcher, the request parse, or the write — propagates out of the handler
loop: every such iteration ends in re-entering the loop or closing the
connection; and the (spec-modelled) dispatcher wraps any error raised by
the registered operation, preserving its human-readable message, into the
response's error field.  (A failure decoding the received bytes, before the
`try` blocks, does propagate, as the counterexample shows.) -/
theorem c4_no_propagation_after_read (reg : Option ResponseV) (env : IterEnv)
    (s : String)
    (hread : readPhase env = .gotData s) :
    (∀ e, (handleLoopBody reg env).next ≠ .propagate e) ∧
    (∀ (registry : List (String × (JVal → Except String JVal)))
        (req : ParsedRequest) (op : JVal → Except String JVal) (msg : String),
      registry.lookup req.method = some op →
      op req.params = .error msg →
      dispatch registry req = .err req.requestId (-32603) msg) := by
  constructor
  · intro e
    simp only [handleLoopBody, hread]
    rcases respondBody (nextRegister reg env) env.sendOutcome with e' | r
    · cases e' <;> simp
    · simp
  · intro registry req op msg hlook hop
    simp [dispatch, hlook, hop]

/-- Witness for C4 as amended: a concrete iteration whose operation raises
(the dispatcher call raises) still re-enters the loop rather than
propagating, and a concrete one-method registry whose operation fails has
its message wrapped into the error response. -/
theorem c4_no_propagation_after_read_witness :
    ((handleLoopBody none ⟨true, false, .ok [102], none, true,
        .error (.other "op boom"), .ok none, none⟩).next ≠
      NextState.propagate (.other "op boom")) ∧
    dispatch [("f", fun _ => .error "op failed")]
        ⟨"f", .null, some (.jnum 2)⟩ =
      .err (some (.jnum 2)) (-32603) "op failed" := by
  have h := c4_no_propagation_after_read none
    ⟨true, false, .ok [102], none, true, .error (.other "op boom"), .ok none, none⟩
    "f" rfl
  exact ⟨h.1 (.other "op boom"),
    h.2 [("f", fun _ => .error "op failed")] ⟨"f", .null, some (.jnum 2)⟩
      (fun _ => .error "op failed") "op failed" rfl rfl⟩

end SocketRpc
